import Mathlib

/-!
Shallow embedding of the `PromptsGrid` React component found in two variants:
the full variant in `src/unnamed/part_000` (with delete flow, clipboard
fallback and toasts) and the reduced variant in
`src/app/prompts/_components/prompts-grid.tsx` (placeholder delete, bare
clipboard call).

Each `useState` hook becomes a field of a state record.  Event handlers become
pure state transformers; the asynchronous persistence collaborators
(`createPrompt`, `updatePrompt`, `deletePrompt`) are passed in as functions
returning an explicit success/failure result, so a handler's behaviour is a
function of the collaborator's outcome.  The clipboard environment
(availability of `navigator.clipboard`, outcome of `writeText`, outcome of
`document.execCommand`) is likewise reified, and copy side effects (toasts,
textarea creation/removal, scheduled reset timers) are recorded explicitly.
-/

/-- A prompt record, from the `Prompt` interface:
`{ id: number; name: string; description: string; content: string }`. -/
structure Prompt where
  id : Int
  name : String
  description : String
  content : String
deriving Repr, DecidableEq

/-- The form draft `formData`: `{ name, description, content }`, all strings. -/
structure FormData where
  name : String
  description : String
  content : String
deriving Repr, DecidableEq

/-- Outcome of the `createPrompt` / `updatePrompt` server actions as observed
by the `try`/`catch` in `handleSubmit`: success carries the returned record;
failure carries `some msg` when the thrown value is an `Error` (so
`err.message` is available) and `none` otherwise. -/
inductive SaveResult where
  | ok (p : Prompt)
  | err (msg : Option String)
deriving Repr, DecidableEq

/-- Outcome of the `deletePrompt` server action. -/
inductive DeleteResult where
  | ok
  | err
deriving Repr, DecidableEq

/-- Component state of the full variant (`src/unnamed/part_000`): one field
per `useState` hook, in declaration order. -/
structure State where
  prompts : List Prompt
  copiedId : Option Int
  hoveredDeleteId : Option Int
  isFormOpen : Bool
  formData : FormData
  isSubmitting : Bool
  error : Option String
  deleteDialogOpen : Bool
  promptToDelete : Option Int
  isDeleting : Bool
  editingId : Option Int
deriving Repr, DecidableEq

/-- `resetAndCloseForm`: close the dialog, clear the draft, the error, the
in-flight guard and the editing target. -/
def resetAndCloseForm (s : State) : State :=
  { s with
    isFormOpen := false
    formData := { name := "", description := "", content := "" }
    error := none
    isSubmitting := false
    editingId := none }

/-- `handleEditClick(promptToEdit)`: remember the edited id, pre-fill the
draft from the record, clear the error, open the dialog. -/
def handleEditClick (p : Prompt) (s : State) : State :=
  { s with
    editingId := some p.id
    formData := { name := p.name, description := p.description, content := p.content }
    error := none
    isFormOpen := true }

/-- The generic message used when the thrown value is not an `Error`:
`"Failed to save prompt."`. -/
def fallbackSaveMessage : String := "Failed to save prompt."

/-- `handleSubmit`: set the in-flight guard and clear the error, then branch
on `editingId`.  Present: call `updatePrompt` and on success replace the
matching record in place by `map`; absent: call `createPrompt` and on success
prepend the new record.  Either success path ends in `resetAndCloseForm`.  On
failure, set the error message (with the generic fallback when the failure
carries none) and release the in-flight guard. -/
def handleSubmit (upd : Int → FormData → SaveResult)
    (cre : FormData → SaveResult) (s : State) : State :=
  let s1 : State := { s with isSubmitting := true, error := none }
  match s1.editingId with
  | some eid =>
      match upd eid s1.formData with
      | SaveResult.ok updated =>
          resetAndCloseForm
            { s1 with prompts := s1.prompts.map fun p => if p.id = eid then updated else p }
      | SaveResult.err msg =>
          { s1 with error := some (msg.getD fallbackSaveMessage), isSubmitting := false }
  | none =>
      match cre s1.formData with
      | SaveResult.ok newPrompt =>
          resetAndCloseForm { s1 with prompts := newPrompt :: s1.prompts }
      | SaveResult.err msg =>
          { s1 with error := some (msg.getD fallbackSaveMessage), isSubmitting := false }

/-- Clicking the submit button.  The button carries `disabled={isSubmitting}`,
so while a submission is in flight the click does nothing.  The second
component reports whether a create/update collaborator call was started. -/
def clickSubmit (upd : Int → FormData → SaveResult)
    (cre : FormData → SaveResult) (s : State) : State × Bool :=
  if s.isSubmitting then (s, false) else (handleSubmit upd cre s, true)

/-- Whether the Cancel button is disabled: it carries `disabled={isSubmitting}`. -/
def cancelDisabled (s : State) : Bool := s.isSubmitting

/-- Clicking the Cancel button: it runs `resetAndCloseForm`, but is disabled
while a submission is in flight, so the click then has no effect. -/
def clickCancel (s : State) : State :=
  if s.isSubmitting then s else resetAndCloseForm s

/-- An outside click on the form dialog.  `onInteractOutside` calls
`e.preventDefault()` when `isSubmitting`, suppressing dismissal; otherwise the
dialog closes via `onOpenChange(false)`, which runs `resetAndCloseForm`. -/
def interactOutside (s : State) : State :=
  if s.isSubmitting then s else resetAndCloseForm s

/-- `handleDeleteClick(promptId)`: record the pending target and open the
confirmation dialog. -/
def handleDeleteClick (promptId : Int) (s : State) : State :=
  { s with promptToDelete := some promptId, deleteDialogOpen := true }

/-- `handleDeleteConfirm`: return immediately when no target is pending.
Otherwise set the in-flight guard, call `deletePrompt`; on success filter the
target id out of the collection, on failure leave it unchanged (the error is
only logged); `finally` clear the guard, close the dialog and clear the
pending target.  The second component reports whether the delete collaborator
was invoked. -/
def handleDeleteConfirm (del : Int → DeleteResult) (s : State) : State × Bool :=
  match s.promptToDelete with
  | none => (s, false)
  | some target =>
      let s1 : State := { s with isDeleting := true }
      let s2 : State :=
        match del target with
        | DeleteResult.ok =>
            { s1 with prompts := s1.prompts.filter fun p => p.id != target }
        | DeleteResult.err => s1
      ({ s2 with isDeleting := false, deleteDialogOpen := false, promptToDelete := none }, true)

/-- A toast notification as passed to `toast({...})`. -/
structure Toast where
  destructive : Bool
  title : String
  message : String
  duration : Option Nat
deriving Repr, DecidableEq

/-- The success toast of the copy handler. -/
def copySuccessToast : Toast :=
  { destructive := false
    title := "Copié !"
    message := "Le contenu a été copié dans le presse-papiers."
    duration := some 2000 }

/-- The failure toast of the copy handler. -/
def copyFailToast : Toast :=
  { destructive := true
    title := "Erreur"
    message := "Impossible de copier le contenu."
    duration := none }

/-- Clipboard environment: whether `navigator.clipboard` exists, whether
`navigator.clipboard.writeText` resolves, and what `document.execCommand`
does in the fallback path (`some b` = returns `b`, `none` = throws). -/
structure CopyEnv where
  clipboardAvailable : Bool
  writeTextOk : Bool
  execCommandResult : Option Bool
deriving Repr, DecidableEq

/-- The fixed delay of the `setTimeout` that resets the copied marker. -/
def copyResetDelay : Nat := 2000

/-- Observable effects of one `handleCopyClick` invocation: the resulting
copied marker, the absolute fire times of the scheduled reset timers, the
toasts raised, and how many temporary textareas were appended to and removed
from the document body. -/
structure CopyEffects where
  copiedId : Option Int
  timers : List Nat
  toasts : List Toast
  textAreasAppended : Nat
  textAreasRemoved : Nat
deriving Repr, DecidableEq

/-- `handleCopyClick(content, promptId)` of the full variant, invoked at
absolute time `now` with current marker `copiedId0`.  Without
`navigator.clipboard` it takes the fallback path: append a hidden textarea,
run `execCommand`; on `true` set the marker and raise the success toast, on
`false` or a throw the inner `catch` raises the failure toast; the textarea
is removed after the inner `try`/`catch` in every case, and the reset timer
is scheduled afterwards in every fallback case.  With the clipboard API, a
resolving `writeText` sets the marker, raises the success toast and schedules
the reset timer; a rejecting one jumps to the outer `catch`, which only
raises the failure toast. -/
def handleCopyClick (env : CopyEnv) (now : Nat) (promptId : Int)
    (copiedId0 : Option Int) : CopyEffects :=
  if env.clipboardAvailable = false then
    match env.execCommandResult with
    | some true =>
        { copiedId := some promptId
          timers := [now + copyResetDelay]
          toasts := [copySuccessToast]
          textAreasAppended := 1
          textAreasRemoved := 1 }
    | some false =>
        { copiedId := copiedId0
          timers := [now + copyResetDelay]
          toasts := [copyFailToast]
          textAreasAppended := 1
          textAreasRemoved := 1 }
    | none =>
        { copiedId := copiedId0
          timers := [now + copyResetDelay]
          toasts := [copyFailToast]
          textAreasAppended := 1
          textAreasRemoved := 1 }
  else
    if env.writeTextOk then
      { copiedId := some promptId
        timers := [now + copyResetDelay]
        toasts := [copySuccessToast]
        textAreasAppended := 0
        textAreasRemoved := 0 }
    else
      { copiedId := copiedId0
        timers := []
        toasts := [copyFailToast]
        textAreasAppended := 0
        textAreasRemoved := 0 }

/-- The copied-marker view of the component together with the pending reset
timers, for reasoning about the 2-second reset behaviour over time. -/
structure GridTimed where
  copiedId : Option Int
  timers : List Nat
deriving Repr, DecidableEq

/-- Run one copy click at time `now` on record `promptId`, accumulating the
newly scheduled timers. -/
def copyStep (env : CopyEnv) (now : Nat) (promptId : Int) (g : GridTimed) : GridTimed :=
  let eff := handleCopyClick env now promptId g.copiedId
  { copiedId := eff.copiedId, timers := g.timers ++ eff.timers }

/-- Fire every pending timer due by time `t`: each fired timer runs
`setCopiedId(null)`.  Timers are non-cancelable, so only the due ones are
discarded. -/
def fireDue (t : Nat) (g : GridTimed) : GridTimed :=
  { copiedId := if g.timers.any (fun ft => ft ≤ t) then none else g.copiedId
    timers := g.timers.filter fun ft => t < ft }

/-- Component state of the reduced variant
(`src/app/prompts/_components/prompts-grid.tsx`): it has no delete-flow hooks
and no hover hook. -/
structure StateV2 where
  prompts : List Prompt
  copiedId : Option Int
  isFormOpen : Bool
  formData : FormData
  isSubmitting : Bool
  error : Option String
  editingId : Option Int
deriving Repr, DecidableEq

/-- `resetAndCloseForm` of the reduced variant (same body). -/
def resetAndCloseFormV2 (s : StateV2) : StateV2 :=
  { s with
    isFormOpen := false
    formData := { name := "", description := "", content := "" }
    error := none
    isSubmitting := false
    editingId := none }

/-- `handleEditClick` of the reduced variant (same body). -/
def handleEditClickV2 (p : Prompt) (s : StateV2) : StateV2 :=
  { s with
    editingId := some p.id
    formData := { name := p.name, description := p.description, content := p.content }
    error := none
    isFormOpen := true }

/-- `handleSubmit` of the reduced variant (same body). -/
def handleSubmitV2 (upd : Int → FormData → SaveResult)
    (cre : FormData → SaveResult) (s : StateV2) : StateV2 :=
  let s1 : StateV2 := { s with isSubmitting := true, error := none }
  match s1.editingId with
  | some eid =>
      match upd eid s1.formData with
      | SaveResult.ok updated =>
          resetAndCloseFormV2
            { s1 with prompts := s1.prompts.map fun p => if p.id = eid then updated else p }
      | SaveResult.err msg =>
          { s1 with error := some (msg.getD fallbackSaveMessage), isSubmitting := false }
  | none =>
      match cre s1.formData with
      | SaveResult.ok newPrompt =>
          resetAndCloseFormV2 { s1 with prompts := newPrompt :: s1.prompts }
      | SaveResult.err msg =>
          { s1 with error := some (msg.getD fallbackSaveMessage), isSubmitting := false }

/-- Clicking Cancel in the reduced variant: same `disabled={isSubmitting}`. -/
def clickCancelV2 (s : StateV2) : StateV2 :=
  if s.isSubmitting then s else resetAndCloseFormV2 s

/-- The reduced variant's delete button: `onClick={() => console.log('Delete',
prompt.id)}` — a placeholder with no state effect. -/
def deleteClickV2 (promptId : Int) (s : StateV2) : StateV2 := s

/-- The reduced variant's copy button handler: it fires
`navigator.clipboard.writeText` without awaiting it, then unconditionally
sets the marker and schedules the reset; if `navigator.clipboard` is absent,
member access throws synchronously and the handler aborts (`none`). -/
def copyClickV2 (env : CopyEnv) (now : Nat) (promptId : Int)
    (copiedId0 : Option Int) : Option CopyEffects :=
  if env.clipboardAvailable then
    some
      { copiedId := some promptId
        timers := [now + copyResetDelay]
        toasts := []
        textAreasAppended := 0
        textAreasRemoved := 0 }
  else
    none

/-- Projection of the full variant's state onto the reduced variant's fields,
for comparing the behaviours the two files share. -/
def toV2 (s : State) : StateV2 :=
  { prompts := s.prompts
    copiedId := s.copiedId
    isFormOpen := s.isFormOpen
    formData := s.formData
    isSubmitting := s.isSubmitting
    error := s.error
    editingId := s.editingId }

/-! Concrete sample data used by witnesses and counterexamples. -/

/-- A sample prompt record with the given id. -/
def samplePrompt (n : Int) : Prompt :=
  { id := n, name := "p", description := "d", content := "c" }

/-- A sample filled-in draft. -/
def sampleDraft : FormData := { name := "A", description := "d", content := "c" }

/-- The empty draft. -/
def emptyDraft : FormData := { name := "", description := "", content := "" }

/-- An idle state holding two prompts, with every dialog closed and every
transient flag neutral. -/
def idleState : State :=
  { prompts := [samplePrompt 3, samplePrompt 5]
    copiedId := none
    hoveredDeleteId := none
    isFormOpen := false
    formData := emptyDraft
    isSubmitting := false
    error := none
    deleteDialogOpen := false
    promptToDelete := none
    isDeleting := false
    editingId := none }

/-- The record returned by the sample update collaborator for id 3 and the
draft with name `"B"`. -/
def promptB : Prompt := { id := 3, name := "B", description := "d", content := "c" }

/-- The record returned by the sample create collaborator. -/
def prompt7 : Prompt := { id := 7, name := "A", description := "d", content := "c" }

/-- A sample update collaborator that echoes the draft back under the given id. -/
def updOk : Int → FormData → SaveResult :=
  fun n d => SaveResult.ok { id := n, name := d.name, description := d.description, content := d.content }

/-- A sample create collaborator that returns the draft as record id 7. -/
def creOk : FormData → SaveResult :=
  fun d => SaveResult.ok { id := 7, name := d.name, description := d.description, content := d.content }

/-- A sample create collaborator that rejects with message `"quota exceeded"`. -/
def creFail : FormData → SaveResult := fun _ => SaveResult.err (some "quota exceeded")

/-- A sample delete collaborator that always resolves. -/
def delOk : Int → DeleteResult := fun _ => DeleteResult.ok

/-- The state with the form open in edit mode on record id 3, draft name
changed to `"B"`. -/
def editState : State :=
  { idleState with
    isFormOpen := true
    editingId := some 3
    formData := { name := "B", description := "d", content := "c" } }

/-- The state with the form open in create mode holding the sample draft. -/
def createState : State :=
  { idleState with isFormOpen := true, formData := sampleDraft }

/-- A state with a submission in flight. -/
def inFlightState : State :=
  { idleState with isFormOpen := true, formData := sampleDraft, isSubmitting := true }

/-- The state after requesting deletion of record id 5. -/
def pendingDeleteState : State :=
  { idleState with deleteDialogOpen := true, promptToDelete := some 5 }

/-- A clipboard environment where the API exists and `writeText` resolves. -/
def envClipOk : CopyEnv :=
  { clipboardAvailable := true, writeTextOk := true, execCommandResult := some true }

/-- A clipboard environment where the API exists but `writeText` rejects. -/
def envPrimaryFail : CopyEnv :=
  { clipboardAvailable := true, writeTextOk := false, execCommandResult := some true }

/-- A clipboard environment without the API where `execCommand` returns
`false`. -/
def envFallbackFail : CopyEnv :=
  { clipboardAvailable := false, writeTextOk := true, execCommandResult := some false }

/-! Claim theorems. -/

/-- Claim C1: when submit runs in edit mode and the update collaborator
succeeds with a record, every element whose id equals the editing target is
replaced by the returned record at its own position, all other elements and
the order are unchanged, and the form is closed with the draft, error,
in-flight guard and editing target reset. -/
theorem submit_update_success (upd : Int → FormData → SaveResult)
    (cre : FormData → SaveResult) (s : State) (eid : Int) (updated : Prompt)
    (hedit : s.editingId = some eid)
    (hupd : upd eid s.formData = SaveResult.ok updated) :
    (handleSubmit upd cre s).prompts
        = s.prompts.map (fun p => if p.id = eid then updated else p)
      ∧ (handleSubmit upd cre s).prompts.length = s.prompts.length
      ∧ (∀ (i : Nat) (h1 : i < (handleSubmit upd cre s).prompts.length)
          (h2 : i < s.prompts.length),
          (handleSubmit upd cre s).prompts[i]
            = if (s.prompts[i]).id = eid then updated else s.prompts[i])
      ∧ (handleSubmit upd cre s).isFormOpen = false
      ∧ (handleSubmit upd cre s).formData = emptyDraft
      ∧ (handleSubmit upd cre s).error = none
      ∧ (handleSubmit upd cre s).isSubmitting = false
      ∧ (handleSubmit upd cre s).editingId = none := by
  simp [handleSubmit, hedit, hupd, resetAndCloseForm, emptyDraft]

/-- Witness for C1: on the concrete edit state targeting id 3 with draft name
`"B"`, the echoing collaborator yields the replaced-in-place collection and a
closed form. -/
theorem submit_update_success_witness :
    editState.editingId = some 3
      ∧ (handleSubmit updOk creOk editState).prompts
          = editState.prompts.map (fun p => if p.id = 3 then promptB else p)
      ∧ (handleSubmit updOk creOk editState).isFormOpen = false
      ∧ (handleSubmit updOk creOk editState).editingId = none :=
  ⟨rfl,
   (submit_update_success updOk creOk editState 3 promptB rfl rfl).1,
   (submit_update_success updOk creOk editState 3 promptB rfl rfl).2.2.2.1,
   (submit_update_success updOk creOk editState 3 promptB rfl rfl).2.2.2.2.2.2.2⟩

/-- Claim C2: when submit runs in create mode and the create collaborator
succeeds with a new record, that record is prepended (it becomes the head and
the previous elements follow unchanged in order) and the form is closed with
all transient form state reset. -/
theorem submit_create_success (upd : Int → FormData → SaveResult)
    (cre : FormData → SaveResult) (s : State) (newPrompt : Prompt)
    (hmode : s.editingId = none)
    (hcre : cre s.formData = SaveResult.ok newPrompt) :
    (handleSubmit upd cre s).prompts = newPrompt :: s.prompts
      ∧ (handleSubmit upd cre s).isFormOpen = false
      ∧ (handleSubmit upd cre s).formData = emptyDraft
      ∧ (handleSubmit upd cre s).error = none
      ∧ (handleSubmit upd cre s).isSubmitting = false
      ∧ (handleSubmit upd cre s).editingId = none := by
  simp [handleSubmit, hmode, hcre, resetAndCloseForm, emptyDraft]

/-- Witness for C2: submitting the sample draft in create mode with the
collaborator returning record id 7 prepends it and closes the form. -/
theorem submit_create_success_witness :
    createState.editingId = none
      ∧ (handleSubmit updOk creOk createState).prompts = prompt7 :: createState.prompts
      ∧ (handleSubmit updOk creOk createState).isFormOpen = false :=
  ⟨rfl,
   (submit_create_success updOk creOk createState prompt7 rfl rfl).1,
   (submit_create_success updOk creOk createState prompt7 rfl rfl).2.1⟩

/-- Claim C3: when the invoked create/update collaborator fails, the form
stays open, the error field holds the failure's message (or the generic
fallback when the failure carries none), the in-flight guard is released, and
the collection is unchanged. -/
theorem submit_failure_keeps_form_open (upd : Int → FormData → SaveResult)
    (cre : FormData → SaveResult) (s : State) (m : Option String)
    (hopen : s.isFormOpen = true)
    (hfail : match s.editingId with
      | some eid => upd eid s.formData = SaveResult.err m
      | none => cre s.formData = SaveResult.err m) :
    (handleSubmit upd cre s).isFormOpen = true
      ∧ (handleSubmit upd cre s).error = some (m.getD fallbackSaveMessage)
      ∧ (handleSubmit upd cre s).isSubmitting = false
      ∧ (handleSubmit upd cre s).prompts = s.prompts := by
  cases hmode : s.editingId with
  | none =>
      rw [hmode] at hfail
      simp [handleSubmit, hmode, hfail, hopen]
  | some eid =>
      rw [hmode] at hfail
      simp [handleSubmit, hmode, hfail, hopen]

/-- Witness for C3: the create collaborator rejecting with message
`"quota exceeded"` leaves the form open with that error and the collection
unchanged. -/
theorem submit_failure_keeps_form_open_witness :
    createState.isFormOpen = true
      ∧ (handleSubmit updOk creFail createState).isFormOpen = true
      ∧ (handleSubmit updOk creFail createState).error = some "quota exceeded"
      ∧ (handleSubmit updOk creFail createState).prompts = createState.prompts :=
  ⟨rfl,
   (submit_failure_keeps_form_open updOk creFail createState (some "quota exceeded") rfl rfl).1,
   (submit_failure_keeps_form_open updOk creFail createState (some "quota exceeded") rfl rfl).2.1,
   (submit_failure_keeps_form_open updOk creFail createState (some "quota exceeded") rfl rfl).2.2.2⟩

/-- Claim C4: confirming a pending delete target removes exactly the records
with that id (preserving the order of the rest) when the collaborator
succeeds and leaves the collection unchanged when it fails; in both outcomes
the in-flight guard is cleared, the dialog is closed and the pending target
is reset. -/
theorem delete_confirm_outcomes (del : Int → DeleteResult) (s : State) (target : Int)
    (hpend : s.promptToDelete = some target) :
    (del target = DeleteResult.ok →
        (handleDeleteConfirm del s).1.prompts
            = s.prompts.filter (fun p => p.id != target)
          ∧ ((handleDeleteConfirm del s).1.prompts).Sublist s.prompts
          ∧ ∀ p : Prompt, p ∈ (handleDeleteConfirm del s).1.prompts ↔
              p ∈ s.prompts ∧ p.id ≠ target)
      ∧ (del target = DeleteResult.err →
          (handleDeleteConfirm del s).1.prompts = s.prompts)
      ∧ (handleDeleteConfirm del s).1.isDeleting = false
      ∧ (handleDeleteConfirm del s).1.deleteDialogOpen = false
      ∧ (handleDeleteConfirm del s).1.promptToDelete = none := by
  cases hdel : del target with
  | ok =>
      refine ⟨fun _ => ⟨?_, ?_, ?_⟩, fun hcontra => ?_, ?_, ?_, ?_⟩
      · simp [handleDeleteConfirm, hpend, hdel]
      · simp only [handleDeleteConfirm, hpend, hdel]
        exact List.filter_sublist _
      · intro p
        simp [handleDeleteConfirm, hpend, hdel, List.mem_filter]
      · simp [hdel] at hcontra
      · simp [handleDeleteConfirm, hpend, hdel]
      · simp [handleDeleteConfirm, hpend, hdel]
      · simp [handleDeleteConfirm, hpend, hdel]
  | err =>
      refine ⟨fun hcontra => ?_, fun _ => ?_, ?_, ?_, ?_⟩
      · simp [hdel] at hcontra
      · simp [handleDeleteConfirm, hpend, hdel]
      · simp [handleDeleteConfirm, hpend, hdel]
      · simp [handleDeleteConfirm, hpend, hdel]
      · simp [handleDeleteConfirm, hpend, hdel]

/-- Witness for C4: confirming the pending target id 5 against a resolving
collaborator removes exactly the record with id 5 and resets the dialog state. -/
theorem delete_confirm_outcomes_witness :
    pendingDeleteState.promptToDelete = some 5
      ∧ (handleDeleteConfirm delOk pendingDeleteState).1.prompts
          = pendingDeleteState.prompts.filter (fun p => p.id != 5)
      ∧ (handleDeleteConfirm delOk pendingDeleteState).1.deleteDialogOpen = false
      ∧ (handleDeleteConfirm delOk pendingDeleteState).1.promptToDelete = none :=
  ⟨rfl,
   ((delete_confirm_outcomes delOk pendingDeleteState 5 rfl).1 rfl).1,
   (delete_confirm_outcomes delOk pendingDeleteState 5 rfl).2.2.2.1,
   (delete_confirm_outcomes delOk pendingDeleteState 5 rfl).2.2.2.2⟩

/-- Claim C5: while a submission is in flight, clicking submit starts no
collaborator call and changes nothing — the submit button is disabled while
`isSubmitting` holds. -/
theorem submit_reentry_guard (upd : Int → FormData → SaveResult)
    (cre : FormData → SaveResult) (s : State)
    (h : s.isSubmitting = true) :
    clickSubmit upd cre s = (s, false) := by
  simp [clickSubmit, h]

/-- Witness for C5: clicking submit in the concrete in-flight state is a
no-op that starts no call. -/
theorem submit_reentry_guard_witness :
    inFlightState.isSubmitting = true
      ∧ clickSubmit updOk creOk inFlightState = (inFlightState, false) :=
  ⟨rfl, submit_reentry_guard updOk creOk inFlightState rfl⟩

/-- Claim C10: when no delete target is pending, the delete-confirm handler
returns immediately: the delete collaborator is not invoked and the state is
unchanged. -/
theorem delete_confirm_noop (del : Int → DeleteResult) (s : State)
    (h : s.promptToDelete = none) :
    handleDeleteConfirm del s = (s, false) := by
  simp [handleDeleteConfirm, h]

/-- Witness for C10: confirming in the idle state (no pending target) changes
nothing and makes no call. -/
theorem delete_confirm_noop_witness :
    idleState.promptToDelete = none
      ∧ handleDeleteConfirm delOk idleState = (idleState, false) :=
  ⟨rfl, delete_confirm_noop delOk idleState rfl⟩

/-- Counterexample for C6: in a state with a submission in flight, the
explicit Cancel button is disabled (`disabled={isSubmitting}`), so it is not
usable, contrary to the claim that it remains usable while outside-click
dismissal is suppressed. -/
theorem cancel_disabled_in_flight_cex :
    inFlightState.isSubmitting = true ∧ cancelDisabled inFlightState = true :=
  ⟨rfl, rfl⟩

/-- Amended C6: while a submission is in flight, outside-click dismissal is
suppressed and the explicit Cancel button is disabled; consequently canceling
the form while a submission is in flight has no effect on the form state (the
guard holds). -/
theorem in_flight_form_guards (s : State) (h : s.isSubmitting = true) :
    interactOutside s = s ∧ clickCancel s = s ∧ cancelDisabled s = true := by
  refine ⟨?_, ?_, ?_⟩
  · simp [interactOutside, h]
  · simp [clickCancel, h]
  · simp [cancelDisabled, h]

/-- Witness for amended C6: in the concrete in-flight state, outside clicks
and cancel clicks change nothing and the Cancel button is disabled. -/
theorem in_flight_form_guards_witness :
    inFlightState.isSubmitting = true
      ∧ interactOutside inFlightState = inFlightState
      ∧ clickCancel inFlightState = inFlightState
      ∧ cancelDisabled inFlightState = true :=
  ⟨rfl,
   (in_flight_form_guards inFlightState rfl).1,
   (in_flight_form_guards inFlightState rfl).2.1,
   (in_flight_form_guards inFlightState rfl).2.2⟩

/-- Claim C7: a successful primary-path copy at time `t1` sets the marker to
the invoking record and schedules a reset timer for `t1 + 2000`; a second
successful copy on a different record at `t2` within the window moves the
marker to the new record (the old record's marker is no longer active), and
by any time at least 2 seconds after the second copy the marker has been
cleared to neutral. -/
theorem copy_marker_timing (env : CopyEnv) (t1 t2 t : Nat) (id1 id2 : Int)
    (hclip : env.clipboardAvailable = true) (hok : env.writeTextOk = true)
    (hne : id1 ≠ id2) (h12 : t1 ≤ t2) (hwin : t2 < t1 + copyResetDelay)
    (ht : t2 + copyResetDelay ≤ t) :
    (copyStep env t1 id1 { copiedId := none, timers := [] }).copiedId = some id1
      ∧ (copyStep env t1 id1 { copiedId := none, timers := [] }).timers
          = [t1 + copyResetDelay]
      ∧ (copyStep env t2 id2
            (copyStep env t1 id1 { copiedId := none, timers := [] })).copiedId = some id2
      ∧ (copyStep env t2 id2
            (copyStep env t1 id1 { copiedId := none, timers := [] })).copiedId ≠ some id1
      ∧ (fireDue t (copyStep env t2 id2
            (copyStep env t1 id1 { copiedId := none, timers := [] }))).copiedId = none := by
  have hfire : t2 + copyResetDelay ≤ t := ht
  refine ⟨?_, ?_, ?_, ?_, ?_⟩
  · simp [copyStep, handleCopyClick, hclip, hok]
  · simp [copyStep, handleCopyClick, hclip, hok]
  · simp [copyStep, handleCopyClick, hclip, hok]
  · simp [copyStep, handleCopyClick, hclip, hok]
    exact fun hcontra => hne hcontra.symm
  · simp [copyStep, handleCopyClick, hclip, hok, fireDue]
    omega

/-- Witness for C7: copying record 1 at time 0 and record 2 at time 1000 with
a working clipboard moves the marker to record 2, and by time 3000 the marker
is neutral again. -/
theorem copy_marker_timing_witness :
    (copyStep envClipOk 1000 2
        (copyStep envClipOk 0 1 { copiedId := none, timers := [] })).copiedId = some 2
      ∧ (fireDue 3000 (copyStep envClipOk 1000 2
          (copyStep envClipOk 0 1 { copiedId := none, timers := [] }))).copiedId = none :=
  ⟨(copy_marker_timing envClipOk 0 1000 3000 1 2 rfl rfl (by decide) (by decide)
      (by decide) (by decide)).2.2.1,
   (copy_marker_timing envClipOk 0 1000 3000 1 2 rfl rfl (by decide) (by decide)
      (by decide) (by decide)).2.2.2.2⟩

/-- Claim C8: in every fallback-path copy (primary clipboard capability
absent) the temporary textarea that is appended is also removed, whatever
`execCommand` does; and whenever the executed copy path fails — fallback path
with `execCommand` not returning `true`, or primary path with `writeText`
rejecting — the copied marker is left unchanged, so no record is newly marked
as copied. -/
theorem copy_fallback_scoped (env : CopyEnv) (now : Nat) (promptId : Int)
    (c0 : Option Int) :
    (env.clipboardAvailable = false →
        (handleCopyClick env now promptId c0).textAreasAppended = 1
          ∧ (handleCopyClick env now promptId c0).textAreasRemoved = 1)
      ∧ ((env.clipboardAvailable = false ∧ env.execCommandResult ≠ some true)
            ∨ (env.clipboardAvailable = true ∧ env.writeTextOk = false) →
          (handleCopyClick env now promptId c0).copiedId = c0) := by
  constructor
  · intro hclip
    cases hec : env.execCommandResult with
    | none => simp [handleCopyClick, hclip, hec]
    | some b => cases b <;> simp [handleCopyClick, hclip, hec]
  · rintro (⟨hclip, hec⟩ | ⟨hclip, hwt⟩)
    · cases hec2 : env.execCommandResult with
      | none => simp [handleCopyClick, hclip, hec2]
      | some b =>
          cases b with
          | false => simp [handleCopyClick, hclip, hec2]
          | true => exact absurd hec2 hec
    · simp [handleCopyClick, hclip, hwt]

/-- Witness for C8: with the clipboard API absent and `execCommand` returning
`false`, the textarea is appended and removed and the marker stays neutral. -/
theorem copy_fallback_scoped_witness :
    (handleCopyClick envFallbackFail 0 5 none).textAreasAppended = 1
      ∧ (handleCopyClick envFallbackFail 0 5 none).textAreasRemoved = 1
      ∧ (handleCopyClick envFallbackFail 0 5 none).copiedId = none :=
  ⟨((copy_fallback_scoped envFallbackFail 0 5 none).1 rfl).1,
   ((copy_fallback_scoped envFallbackFail 0 5 none).1 rfl).2,
   (copy_fallback_scoped envFallbackFail 0 5 none).2 (Or.inl ⟨rfl, by decide⟩)⟩

/-- Counterexample for C9: the copy behaviours of the two source files do not
coincide.  With the clipboard API present but `writeText` rejecting, the full
variant leaves the copied marker unchanged (`none`), while the reduced
variant — which does not await the write — marks record 1 as copied. -/
theorem versions_copy_differ_cex :
    (handleCopyClick envPrimaryFail 0 1 none).copiedId = none
      ∧ (copyClickV2 envPrimaryFail 0 1 none).map CopyEffects.copiedId
          = some (some 1) := by
  constructor
  · rfl
  · rfl

/-- Amended C9: the two variants agree on create/update submission, on
form-cancel and on edit-open (under the projection to the shared state
fields), and the reduced variant's delete button is a stateless placeholder;
but they differ in the copy behaviour as well as the delete wiring: with the
clipboard API present and `writeText` rejecting, the full variant leaves the
copied marker unchanged while the reduced variant sets it. -/
theorem versions_agree_except_delete_and_copy :
    (∀ (upd : Int → FormData → SaveResult) (cre : FormData → SaveResult) (s : State),
        toV2 (handleSubmit upd cre s) = handleSubmitV2 upd cre (toV2 s))
      ∧ (∀ s : State, toV2 (clickCancel s) = clickCancelV2 (toV2 s))
      ∧ (∀ (p : Prompt) (s : State), toV2 (handleEditClick p s) = handleEditClickV2 p (toV2 s))
      ∧ (∀ (promptId : Int) (s2 : StateV2), deleteClickV2 promptId s2 = s2)
      ∧ (handleCopyClick envPrimaryFail 0 1 none).copiedId
          ≠ ((copyClickV2 envPrimaryFail 0 1 none).map CopyEffects.copiedId).getD none := by
  refine ⟨?_, ?_, ?_, ?_, ?_⟩
  · intro upd cre s
    cases hmode : s.editingId with
    | none =>
        cases hcre : cre s.formData with
        | ok p =>
            simp [handleSubmit, handleSubmitV2, toV2, hmode, hcre,
              resetAndCloseForm, resetAndCloseFormV2]
        | err m =>
            simp [handleSubmit, handleSubmitV2, toV2, hmode, hcre]
    | some eid =>
        cases hupd : upd eid s.formData with
        | ok p =>
            simp [handleSubmit, handleSubmitV2, toV2, hmode, hupd,
              resetAndCloseForm, resetAndCloseFormV2]
        | err m =>
            simp [handleSubmit, handleSubmitV2, toV2, hmode, hupd]
  · intro s
    cases hsub : s.isSubmitting <;>
      simp [clickCancel, clickCancelV2, toV2, hsub, resetAndCloseForm, resetAndCloseFormV2]
  · intro p s
    simp [handleEditClick, handleEditClickV2, toV2]
  · intro promptId s2
    rfl
  · decide
